import Mathlib

/-!
Shallow embedding of the arkos MCP tool-integration layer
(`src/tool_module`): the stdio and HTTP transports, the protocol client
(`MCPClient`), the multi-server coordinator (`MCPToolManager`), and the
OAuth 2.1 / PKCE helpers of `OAuthManager`.

Python effects are made explicit: stateful methods become functions on
explicit state records, network/subprocess interaction is threaded through
environment records supplying the outcomes of the external calls, and
raised exceptions become `Except` / `Option` error values.  Traces of the
externally visible actions (requests sent, authentications performed) are
returned alongside results where a claim talks about them.
-/

namespace Arkos

/-- A single-quote character (used by the Python f-strings that quote
server and tool names in error messages). -/
def singleQuote : Char := Char.ofNat 39

/-- One-character string holding a single quote. -/
def sq : String := String.mk [singleQuote]

/-! ## Transport state (`transports/stdio.py`, `transports/http.py`) -/

/-- State of a `StdioTransport` instance (`transports/stdio.py`).
The subprocess handle is abstracted to an optional pid. -/
structure StdioState where
  command : String
  args : List String
  env : List (String × String)
  process : Option Nat
  requestId : Nat
deriving DecidableEq

/-- State of an `HTTPTransport` instance (`transports/http.py`).
The aiohttp session is abstracted to an optional unit handle. -/
structure HttpState where
  url : String
  session : Option Unit
  accessToken : Option String
deriving DecidableEq

/-- `StdioTransport.close`: terminates the subprocess when one is running
(graceful wait, escalating to a kill on timeout – both caught internally)
and resets `self.process` to `None` in the `finally` block; a call with no
process is a no-op.  Either way the method returns normally. -/
def closeStdio (s : StdioState) : StdioState :=
  match s.process with
  | some _ => { s with process := none }
  | none => s

/-- `HTTPTransport.close`: closes and clears the aiohttp session when one
exists; otherwise a no-op.  The method returns normally. -/
def closeHttp (h : HttpState) : HttpState :=
  match h.session with
  | some _ => { h with session := none }
  | none => h

/-- The two transport variants behind the `MCPTransport` interface. -/
inductive TransportState
  | stdio (s : StdioState)
  | http (h : HttpState)
deriving DecidableEq

/-- Dispatch of `close()` through the transport interface. -/
def transportClose : TransportState → TransportState
  | .stdio s => .stdio (closeStdio s)
  | .http h => .http (closeHttp h)

/-- A transport whose underlying channel has been released. -/
def transportClosed : TransportState → Prop
  | .stdio s => s.process = none
  | .http h => h.session = none

/-! ## JSON-RPC requests and request ids (claim about id uniqueness) -/

/-- The JSON-RPC request object built by `StdioTransport.send_request`. -/
structure StdioRequest where
  jsonrpc : String
  id : Nat
  method : String
deriving DecidableEq

/-- The id-allocation and request-construction part of
`StdioTransport.send_request`: under the lock, `self.request_id += 1`,
`req_id = self.request_id`, then the request carries `req_id`. -/
def stdioSendRequest (s : StdioState) (method : String) : StdioState × StdioRequest :=
  ({ s with requestId := s.requestId + 1 },
   { jsonrpc := "2.0", id := s.requestId + 1, method := method })

/-- The requests emitted by a sequence of `send_request` calls on one
`StdioTransport` instance, one per method in the list. -/
def stdioRun (s : StdioState) : List String → List StdioRequest
  | [] => []
  | m :: ms =>
    let (s2, req) := stdioSendRequest s m
    req :: stdioRun s2 ms

/-- The JSON-RPC request object built by `HTTPTransport.send_request`:
the id is the literal `1` on every call ("Simple ID for now"). -/
structure HttpRequest where
  jsonrpc : String
  id : Nat
  method : String
deriving DecidableEq

/-- Request construction in `HTTPTransport.send_request` (state-free:
the id does not depend on the transport's history). -/
def httpBuildRequest (method : String) : HttpRequest :=
  { jsonrpc := "2.0", id := 1, method := method }

/-! ## `HTTPTransport.send_request` response handling (the 401 path) -/

/-- Outcome of one `HTTPTransport.send_request` call against a server
modelled as a stream of HTTP statuses, bounded by an explicit fuel.
Each constructor carries the number of `OAuthManager.authenticate` calls
performed (the re-authentications). -/
inductive HttpSendOutcome
  | ok (authCount : Nat)
  | err (authCount : Nat) (msg : String)
  | fuelOut (authCount : Nat)
deriving DecidableEq

/-- The response-handling loop of `HTTPTransport.send_request`
(`transports/http.py` lines 104–133).  `server k` is the HTTP status the
server returns to the `(k+1)`-th POST of this call chain.  On a 401 with
an `oauth_manager` the code re-authenticates and re-enters
`send_request` recursively with no retry bound; on a 401 without OAuth,
and on any other status ≥ 400, it raises; otherwise it returns the body.
`fuel` bounds the recursion for the embedding; `auths` counts the
re-authentications performed so far. -/
def httpSendRequest (hasOauth : Bool) (server : Nat → Nat) :
    Nat → Nat → Nat → HttpSendOutcome
  | _, auths, 0 => .fuelOut auths
  | k, auths, fuel + 1 =>
    let status := server k
    if status = 401 then
      if hasOauth then
        httpSendRequest hasOauth server (k + 1) (auths + 1) fuel
      else
        .err auths "Authentication required but no OAuth configured"
    else if 400 ≤ status then
      .err auths ("HTTP error " ++ toString status)
    else
      .ok auths

/-! ## `MCPClient` (`tool_call.py`): start / stop / list / call -/

/-- State of an `MCPClient`: its configured server name, its transport,
and the `_initialized` flag. -/
structure ClientState where
  name : String
  transport : TransportState
  initialized : Bool
deriving DecidableEq

/-- `MCPClient.stop`: `await self.transport.close()` and, in the
`finally` block, `self._initialized = False`. -/
def clientStop (c : ClientState) : ClientState :=
  { c with transport := transportClose c.transport, initialized := false }

/-- A JSON-RPC response as consumed by `MCPClient`: an optional `error`
field, and the pieces of `result` the client reads
(`result.tools` for `tools/list`, the opaque `result` for `tools/call`). -/
structure JsonRpcResponse where
  error : Option String
  tools : List String
  result : String
deriving DecidableEq

/-- The distinct ways `MCPClient.start` can fail: the transport's
`connect()` raises, `send_request("initialize", …)` raises at the
transport level (e.g. the stdio subprocess never writes a valid JSON-RPC
line), the initialize response carries an `error` field, or the
`notifications/initialized` notification raises. -/
inductive StartError
  | connectFailed (msg : String)
  | transportError (msg : String)
  | initError (err : String)
  | notifyFailed (msg : String)
deriving DecidableEq

/-- Environment for one `MCPClient.start` run: the outcomes of the
external calls it makes, in order. -/
structure StartEnv where
  connectError : Option String
  pid : Nat
  initResponse : Except String JsonRpcResponse
  notifyError : Option String

/-- `connect()` through the transport interface: the stdio variant spawns
the subprocess, the HTTP variant opens an aiohttp session. -/
def transportConnect (t : TransportState) (pid : Nat) : TransportState :=
  match t with
  | .stdio s => .stdio { s with process := some pid }
  | .http h => .http { h with session := some () }

/-- Result of an `MCPClient.start` run: the client state afterwards,
whether `self.stop()` was invoked, and the propagated exception (if any). -/
structure StartResult where
  state : ClientState
  stopCalled : Bool
  error : Option StartError
deriving DecidableEq

/-- `MCPClient.start` (`tool_call.py` lines 95–134): connect the
transport, send `initialize`, raise if the response has an `error`
field, send the `notifications/initialized` notification, set
`_initialized = True`; the `except` block logs, awaits `self.stop()` and
re-raises. -/
def clientStart (env : StartEnv) (c : ClientState) : StartResult :=
  match env.connectError with
  | some m => { state := clientStop c, stopCalled := true, error := some (.connectFailed m) }
  | none =>
    let c1 : ClientState := { c with transport := transportConnect c.transport env.pid }
    match env.initResponse with
    | .error m =>
      { state := clientStop c1, stopCalled := true, error := some (.transportError m) }
    | .ok resp =>
      match resp.error with
      | some e =>
        { state := clientStop c1, stopCalled := true, error := some (.initError e) }
      | none =>
        match env.notifyError with
        | some m =>
          { state := clientStop c1, stopCalled := true, error := some (.notifyFailed m) }
        | none =>
          { state := { c1 with initialized := true }, stopCalled := false, error := none }

/-- The message of the RuntimeError raised by `MCPClient.list_tools` and
`MCPClient.call_tool` when `_initialized` is false:
`f"MCP server '{self.config.name}' not initialized"`. -/
def uninitMsg (name : String) : String :=
  "MCP server " ++ sq ++ name ++ sq ++ " not initialized"

/-- Environment for a single client request: the outcome of
`transport.send_request`, indexed by method name. -/
structure ReqEnv where
  response : String → Except String JsonRpcResponse

/-- `MCPClient.list_tools` (`tool_call.py` lines 144–168), returning the
outcome together with the trace of methods sent on the transport. -/
def clientListTools (env : ReqEnv) (c : ClientState) :
    Except String (List String) × List String :=
  if c.initialized = false then
    (.error (uninitMsg c.name), [])
  else
    match env.response "tools/list" with
    | .error m => (.error m, ["tools/list"])
    | .ok r =>
      match r.error with
      | some e => (.error ("tools/list failed: " ++ e), ["tools/list"])
      | none => (.ok r.tools, ["tools/list"])

/-- `MCPClient.call_tool` (`tool_call.py` lines 170–208), returning the
outcome together with the trace of methods sent on the transport. -/
def clientCallTool (env : ReqEnv) (c : ClientState) (name : String) :
    Except String String × List String :=
  if c.initialized = false then
    (.error (uninitMsg c.name), [])
  else
    match env.response "tools/call" with
    | .error m => (.error m, ["tools/call"])
    | .ok r =>
      match r.error with
      | some e =>
        (.error ("Tool " ++ sq ++ name ++ sq ++ " execution failed: " ++ e), ["tools/call"])
      | none => (.ok r.result, ["tools/call"])

/-! ## `OAuthManager.get_token` (`transports/http.py` lines 190–207) -/

/-- The cached token data read from `~/.arkos/mcp_tokens.json`.  The
spec's data model gives a token an expiry; `OAuthManager` itself never
reads it. -/
structure TokenData where
  access_token : String
  refresh_token : Option String
  expires_at : Option Nat
deriving DecidableEq

/-- `OAuthManager._is_token_expired` (`transports/http.py` lines
428–432): the body is literally `return False` ("For now, just return
False and let the server tell us if expired"). -/
def is_token_expired (_td : TokenData) : Bool := false

/-- Modelled from the spec data model ("OAuthToken: access_token,
refresh_token, expiry"): a token counts as expired once the current time
has reached its expiry.  Used only to compare the spec's notion of
expiry with the code's `_is_token_expired`. -/
def specTokenExpired (td : TokenData) (now : Nat) : Bool :=
  match td.expires_at with
  | some e => decide (e ≤ now)
  | none => false

/-- Network interactions `get_token` can perform. -/
inductive OAuthAction
  | refreshCall
  | fullAuthFlow
deriving DecidableEq

/-- Environment for a `get_token` run: the outcome of
`_refresh_token` (new access token, or the exception it raised) and of
`authenticate()`. -/
structure OAuthEnv where
  refreshResult : Except String String
  authenticateResult : String

/-- `OAuthManager.get_token`: return the cached token if present and not
expired; otherwise, if the cached data has a refresh token, try
`_refresh_token` and fall back to `authenticate()` on failure; otherwise
`authenticate()`.  The returned list is the trace of network
interactions performed. -/
def get_token (env : OAuthEnv) (cached : Option TokenData) :
    String × List OAuthAction :=
  match cached with
  | some td =>
    if is_token_expired td = false then
      (td.access_token, [])
    else
      match td.refresh_token with
      | some _ =>
        (match env.refreshResult with
         | .ok tok => (tok, [.refreshCall])
         | .error _ => (env.authenticateResult, [.refreshCall, .fullAuthFlow]))
      | none => (env.authenticateResult, [.fullAuthFlow])
  | none => (env.authenticateResult, [.fullAuthFlow])

/-! ## PKCE (`transports/http.py` lines 269–280 and 282–297) -/

/-- The URL-safe base64 alphabet used by `base64.urlsafe_b64encode`. -/
def b64urlAlphabet : List Char :=
  "ABCDEFGHIJKLMNOPQRSTUVWXYZabcdefghijklmnopqrstuvwxyz0123456789-_".toList

/-- The character encoding a 6-bit group. -/
def b64char (n : Nat) : Char := b64urlAlphabet.getD n (Char.ofNat 65)

/-- `base64.urlsafe_b64encode` over a byte list, with `=` padding. -/
def b64urlEncode : List Nat → List Char
  | [] => []
  | [a] => [b64char (a / 4), b64char (a % 4 * 16), '=', '=']
  | [a, b] => [b64char (a / 4), b64char (a % 4 * 16 + b / 16), b64char (b % 16 * 4), '=']
  | a :: b :: c :: rest =>
    b64char (a / 4) :: b64char (a % 4 * 16 + b / 16) ::
      b64char (b % 16 * 4 + c / 64) :: b64char (c % 64) :: b64urlEncode rest

/-- Python's `str.rstrip("=")`: drop the trailing `=` characters. -/
def rstripEq (cs : List Char) : List Char :=
  ((cs.reverse).dropWhile (fun c => c = '=')).reverse

/-- `str.encode()` on the ASCII strings this module hashes (base64url
output only), byte per character. -/
def utf8Encode (cs : List Char) : List Nat := cs.map Char.toNat

/-- `OAuthManager._generate_code_verifier`: URL-safe base64 of
`secrets.token_bytes(32)`, with the `=` padding stripped.  The 32 random
bytes are a parameter of the embedding. -/
def generate_code_verifier (randomBytes : List Nat) : List Char :=
  rstripEq (b64urlEncode randomBytes)

/-- `OAuthManager._generate_code_challenge`: URL-safe base64 of
`hashlib.sha256(verifier.encode()).digest()`, `=` padding stripped.
SHA-256 itself (an external library call) is a parameter. -/
def generate_code_challenge (sha256 : List Nat → List Nat) (verifier : List Char) : List Char :=
  rstripEq (b64urlEncode (sha256 (utf8Encode verifier)))

/-- The authorization query parameters built by
`OAuthManager._get_authorization_code` (lines 287–295). -/
def authorizationParams (clientId redirectUri scope state challenge : String) :
    List (String × String) :=
  [("response_type", "code"),
   ("client_id", clientId),
   ("redirect_uri", redirectUri),
   ("scope", scope),
   ("state", state),
   ("code_challenge", challenge),
   ("code_challenge_method", "S256")]

/-- The query parameters transmitted by `OAuthManager.authenticate` for
a given draw of 32 random verifier bytes: the code challenge is derived
from the freshly generated verifier. -/
def authenticateParams (sha256 : List Nat → List Nat) (randomBytes : List Nat)
    (clientId redirectUri scope state : String) : List (String × String) :=
  authorizationParams clientId redirectUri scope state
    (String.mk (generate_code_challenge sha256 (generate_code_verifier randomBytes)))

/-! ## `MCPToolManager` (`tool_call.py`) -/

/-- The module-level `PER_USER_SERVICES` table: service id, display
name, auth path. -/
def perUserServices : List (String × String × String) :=
  [("google-calendar", "Google Calendar", "/auth/google/login")]

/-- Membership in `PER_USER_SERVICES`. -/
def isPerUserService (name : String) : Bool :=
  perUserServices.any (fun p => p.1 = name)

/-- `PER_USER_SERVICES.get(service, {}).get("auth_path", "/auth/connect")`. -/
def serviceAuthPath (service : String) : String :=
  match perUserServices.find? (fun p => p.1 = service) with
  | some p => p.2.2
  | none => "/auth/connect"

/-- `PER_USER_SERVICES.get(service, {}).get("name", service)`. -/
def serviceDisplayName (service : String) : String :=
  match perUserServices.find? (fun p => p.1 = service) with
  | some p => p.2.1
  | none => service

/-- `AuthRequiredError.connect_url`:
`f"{auth_path}?user_id={user_id}"`. -/
def authConnectUrl (service userId : String) : String :=
  serviceAuthPath service ++ "?user_id=" ++ userId

/-- The default `AuthRequiredError.message`. -/
def authDefaultMsg (service : String) : String :=
  "Please connect " ++ serviceDisplayName service ++ " to continue"

/-- Python-dict assignment on the tool registry: overwrite the value in
place when the key exists, append otherwise. -/
def registryInsert (reg : List (String × String)) (tool server : String) :
    List (String × String) :=
  if reg.any (fun p => p.1 = tool) then
    reg.map (fun p => if p.1 = tool then (tool, server) else p)
  else
    reg ++ [(tool, server)]

/-- Python-dict `get` on the tool registry. -/
def registryGet (reg : List (String × String)) (tool : String) : Option String :=
  (reg.find? (fun p => p.1 = tool)).map (fun p => p.2)

/-- Outcome of bringing up one configured shared server during
`initialize_servers`: either `client.start()` / `client.list_tools()`
raised, or the server started and reported these tool names. -/
inductive ServerStartOutcome
  | fails (msg : String)
  | toolList (tools : List String)

/-- Whether a server outcome is a successful start. -/
def outcomeOk : ServerStartOutcome → Bool
  | .fails _ => false
  | .toolList _ => true

/-- The coordinator state built up by `initialize_servers`: connected
shared clients, the tool registry, the recorded per-user configs, and
the servers whose failure was logged. -/
structure InitState where
  clients : List String
  registry : List (String × String)
  perUser : List String
  failures : List String
deriving DecidableEq

/-- One iteration of the `initialize_servers` loop for the named server:
per-user services are recorded and skipped; otherwise the server is
started, its tools registered and the client stored, any exception being
logged and swallowed. -/
def initStep (env : String → ServerStartOutcome) (st : InitState) (name : String) :
    InitState :=
  if isPerUserService name then
    { st with perUser := st.perUser ++ [name] }
  else
    match env name with
    | .fails _ => { st with failures := st.failures ++ [name] }
    | .toolList tools =>
      { st with
        registry := tools.foldl (fun r t => registryInsert r t name) st.registry,
        clients := st.clients ++ [name] }

/-- The loop of `initialize_servers` over the configured server names in
order, from an empty coordinator. -/
def initRun (env : String → ServerStartOutcome) (config : List String) : InitState :=
  config.foldl (initStep env) ⟨[], [], [], []⟩

/-- `MCPToolManager.initialize_servers` (`tool_call.py` lines 277–339):
run the loop, then raise iff no shared client started and no per-user
service was recorded. -/
def initialize_servers (env : String → ServerStartOutcome) (config : List String) :
    Except String InitState :=
  let st := initRun env config
  if st.clients = [] ∧ st.perUser = [] then
    .error "No MCP servers successfully initialized"
  else
    .ok st

/-- The manager state `call_tool` consults. -/
structure ManagerState where
  registry : List (String × String)
  perUserConfigs : List String
  hasTokenStore : Bool
  hasToken : String → String → Bool
  clients : List String

/-- Environment for `call_tool`: the outcome of
`_get_user_client(user_id, service)` — `none` when no client could be
started, or the tool names it discovers and registers under the
service on success. -/
structure UserClientEnv where
  userClient : Option String → String → Option (List String)

/-- The errors `MCPToolManager.call_tool` can raise before reaching a
server: `AuthRequiredError` (with service, user id, connect URL and
message), the unknown-tool `ValueError`, and the not-connected
`RuntimeError`. -/
inductive MgrCallError
  | authRequired (service userId connectUrl msg : String)
  | unknownTool (msg : String)
  | serverNotConnected (msg : String)
deriving DecidableEq

/-- Where a successful `call_tool` routes the invocation. -/
inductive CallRoute
  | sharedCall (server : String)
  | userCall (server : String)
deriving DecidableEq

/-- The per-user probe loop of `call_tool` (`tool_call.py` lines
532–547): for each configured per-user service in order, raise
`AuthRequiredError` as soon as there is no token store or no stored
token for `user_id or ""`; otherwise probe `_get_user_client` (which
registers the discovered tools) and stop once the tool has appeared in
the registry. -/
def probeServices (env : UserClientEnv) (ms : ManagerState) (tool : String)
    (userId : Option String) :
    List String → List (String × String) →
      Except MgrCallError (Option String × List (String × String))
  | [], reg => .ok (none, reg)
  | s :: rest, reg =>
    if ms.hasTokenStore = false ∨ ms.hasToken (userId.getD "") s = false then
      .error (.authRequired s (userId.getD "unknown")
        (authConnectUrl s (userId.getD "unknown")) (authDefaultMsg s))
    else
      let reg2 := match env.userClient userId s with
        | some tools => tools.foldl (fun r t => registryInsert r t s) reg
        | none => reg
      if (env.userClient userId s).isSome ∧ (registryGet reg2 tool).isSome then
        .ok (registryGet reg2 tool, reg2)
      else
        probeServices env ms tool userId rest reg2

/-- `MCPToolManager.call_tool` (`tool_call.py` lines 502–574) up to the
routing decision: registry lookup, the per-user probe loop when the tool
is unknown, the unknown-tool error, the per-user authentication gate,
and the shared-client fallback. -/
def mgrCallTool (env : UserClientEnv) (ms : ManagerState) (tool : String)
    (userId : Option String) : Except MgrCallError CallRoute :=
  let probe : Except MgrCallError (Option String × List (String × String)) :=
    match registryGet ms.registry tool with
    | some s => .ok (some s, ms.registry)
    | none =>
      match ms.perUserConfigs with
      | [] => .ok (none, ms.registry)
      | s :: rest => probeServices env ms tool userId (s :: rest) ms.registry
  match probe with
  | .error e => .error e
  | .ok (none, _) => .error (.unknownTool ("Unknown tool: " ++ tool))
  | .ok (some server, _) =>
    if isPerUserService server then
      match userId with
      | none =>
        .error (.authRequired server "unknown" (authConnectUrl server "unknown")
          ("Tool " ++ sq ++ tool ++ sq ++ " requires user authentication"))
      | some uid =>
        if (env.userClient (some uid) server).isSome then
          .ok (.userCall server)
        else
          .error (.authRequired server uid (authConnectUrl server uid) (authDefaultMsg server))
    else
      if server ∈ ms.clients then
        .ok (.sharedCall server)
      else
        .error (.serverNotConnected ("Server " ++ sq ++ server ++ sq ++ " not connected"))

/-! ## Helper lemmas -/

lemma stdioRun_id_gt (ms : List String) :
    ∀ s : StdioState, ∀ req ∈ stdioRun s ms, s.requestId < req.id := by
  induction ms with
  | nil => intro s req h; simp [stdioRun] at h
  | cons m ms ih =>
    intro s req h
    simp only [stdioRun, stdioSendRequest, List.mem_cons] at h
    rcases h with h | h
    · subst h; exact Nat.lt_succ_self _
    · exact Nat.lt_of_succ_lt (ih _ req h)

lemma stdioRun_id_pairwise_lt (ms : List String) :
    ∀ s : StdioState, (stdioRun s ms).Pairwise (fun a b => a.id < b.id) := by
  induction ms with
  | nil => intro s; simp [stdioRun]
  | cons m ms ih =>
    intro s
    simp only [stdioRun, stdioSendRequest]
    refine List.Pairwise.cons ?_ (ih _)
    intro b hb
    exact stdioRun_id_gt ms _ b hb

lemma httpSendRequest_all401 :
    ∀ fuel k auths, httpSendRequest true (fun _ => 401) k auths fuel
      = .fuelOut (auths + fuel) := by
  intro fuel
  induction fuel with
  | zero => intro k auths; rfl
  | succ n ih =>
    intro k auths
    have hstep : httpSendRequest true (fun _ => 401) k auths (n + 1)
        = httpSendRequest true (fun _ => 401) (k + 1) (auths + 1) n := rfl
    rw [hstep, ih]
    congr 1
    omega

lemma closeStdio_idem (s : StdioState) : closeStdio (closeStdio s) = closeStdio s := by
  cases h : s.process <;> simp [closeStdio, h]

lemma closeHttp_idem (h : HttpState) : closeHttp (closeHttp h) = closeHttp h := by
  cases hs : h.session <;> simp [closeHttp, hs]

lemma transportClose_idem (t : TransportState) :
    transportClose (transportClose t) = transportClose t := by
  cases t with
  | stdio s => simp [transportClose, closeStdio_idem]
  | http h => simp [transportClose, closeHttp_idem]

lemma transportClosed_close (t : TransportState) : transportClosed (transportClose t) := by
  cases t with
  | stdio s => cases hp : s.process <;> simp [transportClose, closeStdio, transportClosed, hp]
  | http h => cases hs : h.session <;> simp [transportClose, closeHttp, transportClosed, hs]

/-! ## Claim theorems -/

/-- C1: the claim says a 401 triggers exactly one re-authentication and
one retry, a second 401 propagating as an error.  The code instead
re-enters `send_request` after every 401 with no retry bound: against a
server that answers 401 to the first two POSTs it performs two
re-authentications and still succeeds, and against a server that always
answers 401 the recursion never returns within any bound (one
re-authentication per attempt). -/
theorem http_401_retry_unbounded :
    httpSendRequest true (fun k => if k < 2 then 401 else 200) 0 0 10
      = .ok 2 ∧
    ∀ fuel : Nat, httpSendRequest true (fun _ => 401) 0 0 fuel = .fuelOut fuel := by
  constructor
  · rfl
  · intro fuel
    simpa using httpSendRequest_all401 fuel 0 0

/-- C3 counterexample: on an `HTTPTransport`, two successive
`send_request` calls both carry request id 1, so an outbound id is not
distinct from the ids previously sent on that transport. -/
theorem http_request_id_repeats :
    (httpBuildRequest "tools/list").id = (httpBuildRequest "tools/call").id ∧
    (httpBuildRequest "tools/list").id = 1 :=
  ⟨rfl, rfl⟩

/-- C3 amended: on a `StdioTransport` every sequence of `send_request`
calls yields pairwise-distinct request ids; an `HTTPTransport` sends the
constant id 1 on every request. -/
theorem request_id_uniqueness_amended (s : StdioState) (ms : List String) :
    (stdioRun s ms).Pairwise (fun a b => a.id ≠ b.id) ∧
    ∀ m : String, (httpBuildRequest m).id = 1 := by
  constructor
  · exact (stdioRun_id_pairwise_lt ms s).imp (fun h => Nat.ne_of_lt h)
  · intro m; rfl

/-- C2 counterexample: a cached token that is expired in the spec's
sense (expiry 100 at time 200) and carries a refresh token is returned
straight from the cache with no network interaction — no silent refresh
is attempted, because `_is_token_expired` unconditionally returns
`False`. -/
theorem cached_token_never_refreshed :
    specTokenExpired ⟨"cached-access", some "cached-refresh", some 100⟩ 200 = true ∧
    get_token ⟨.ok "refreshed-access", "fresh-access"⟩
        (some ⟨"cached-access", some "cached-refresh", some 100⟩)
      = ("cached-access", []) := by
  constructor
  · decide
  · rfl

/-- C2 amended: any cached token is returned without network
interaction — the code's expiry check `_is_token_expired` always reports
not-expired, so the silent-refresh branch of `get_token` is unreachable —
and with no cached token the full interactive flow runs. -/
theorem get_token_cached_amended (env : OAuthEnv) (td : TokenData) :
    get_token env (some td) = (td.access_token, []) ∧
    get_token env none = (env.authenticateResult, [.fullAuthFlow]) ∧
    is_token_expired td = false := by
  refine ⟨?_, rfl, rfl⟩
  simp [get_token, is_token_expired]

/-- C5: whenever `MCPClient.start` fails — transport connect failure, a
transport-level error from the initialize request, an `error` field in
the initialize response, or a failed initialized-notification — `stop()`
is invoked, the transport ends up closed, the `_initialized` flag is
false, and the error propagates to the caller. -/
theorem mcpclient_start_failure (env : StartEnv) (c : ClientState) (e : StartError)
    (hfail : (clientStart env c).error = some e) :
    (clientStart env c).stopCalled = true ∧
    (clientStart env c).state.initialized = false ∧
    transportClosed (clientStart env c).state.transport := by
  obtain ⟨ce, pid, ir, ne⟩ := env
  rcases ce with _ | m
  · rcases ir with m | resp
    · exact ⟨rfl, rfl, transportClosed_close _⟩
    · obtain ⟨rerr, rtools, rres⟩ := resp
      rcases rerr with _ | err
      · rcases ne with _ | m
        · exact nomatch hfail
        · exact ⟨rfl, rfl, transportClosed_close _⟩
      · exact ⟨rfl, rfl, transportClosed_close _⟩
  · exact ⟨rfl, rfl, transportClosed_close _⟩

/-- C5 witness: a client whose transport connect raises. -/
theorem mcpclient_start_failure_witness :
    (clientStart ⟨some "spawn failed", 7, .ok ⟨none, [], ""⟩, none⟩
        ⟨"search", .stdio ⟨"npx", [], [], none, 0⟩, false⟩).stopCalled = true ∧
    (clientStart ⟨some "spawn failed", 7, .ok ⟨none, [], ""⟩, none⟩
        ⟨"search", .stdio ⟨"npx", [], [], none, 0⟩, false⟩).state.initialized = false ∧
    transportClosed (clientStart ⟨some "spawn failed", 7, .ok ⟨none, [], ""⟩, none⟩
        ⟨"search", .stdio ⟨"npx", [], [], none, 0⟩, false⟩).state.transport :=
  mcpclient_start_failure _ _ (.connectFailed "spawn failed") rfl

/-- C6: on an uninitialized client, `list_tools` and `call_tool` both
fail with the uninitialized error naming the server, and no request is
sent on the transport (empty trace). -/
theorem uninitialized_rejects (env : ReqEnv) (c : ClientState) (tool : String)
    (h : c.initialized = false) :
    clientListTools env c = (.error (uninitMsg c.name), []) ∧
    clientCallTool env c tool = (.error (uninitMsg c.name), []) ∧
    ∃ pre post, uninitMsg c.name = pre ++ c.name ++ post := by
  refine ⟨?_, ?_, "MCP server " ++ sq, sq ++ " not initialized", ?_⟩
  · simp [clientListTools, h]
  · simp [clientCallTool, h]
  · simp [uninitMsg, String.append_assoc]

/-- C6 witness: a freshly constructed (never started) client refuses
both operations without touching the transport. -/
theorem uninitialized_rejects_witness :
    clientListTools ⟨fun _ => .error "no reply"⟩
        ⟨"search", .stdio ⟨"npx", [], [], none, 0⟩, false⟩
      = (.error (uninitMsg "search"), []) ∧
    clientCallTool ⟨fun _ => .error "no reply"⟩
        ⟨"search", .stdio ⟨"npx", [], [], none, 0⟩, false⟩ "web_search"
      = (.error (uninitMsg "search"), []) ∧
    ∃ pre post, uninitMsg "search" = pre ++ "search" ++ post :=
  uninitialized_rejects _ _ "web_search" rfl

/-- C9: `StdioTransport.close`, `HTTPTransport.close` and
`MCPClient.stop` are idempotent from any state (including before
connect): the second invocation leaves the instance unchanged, and each
is a total function of the state (no error). -/
theorem stop_close_idempotent (s : StdioState) (h : HttpState) (c : ClientState) :
    closeStdio (closeStdio s) = closeStdio s ∧
    closeHttp (closeHttp h) = closeHttp h ∧
    clientStop (clientStop c) = clientStop c := by
  refine ⟨closeStdio_idem s, closeHttp_idem h, ?_⟩
  simp [clientStop, transportClose_idem]

/-! ## Lemmas about `initialize_servers` -/

lemma initFold_clients (env : String → ServerStartOutcome) :
    ∀ (config : List String) (st : InitState),
      (config.foldl (initStep env) st).clients
        = st.clients ++ config.filter (fun n => !isPerUserService n && outcomeOk (env n)) := by
  intro config
  induction config with
  | nil => intro st; simp
  | cons n rest ih =>
    intro st
    rw [List.foldl_cons, ih, List.filter_cons]
    by_cases hp : isPerUserService n
    · simp [initStep, hp]
    · cases he : env n with
      | fails msg => simp [initStep, hp, he, outcomeOk]
      | toolList tools => simp [initStep, hp, he, outcomeOk]

lemma initFold_failures (env : String → ServerStartOutcome) :
    ∀ (config : List String) (st : InitState),
      (config.foldl (initStep env) st).failures
        = st.failures ++ config.filter (fun n => !isPerUserService n && !outcomeOk (env n)) := by
  intro config
  induction config with
  | nil => intro st; simp
  | cons n rest ih =>
    intro st
    rw [List.foldl_cons, ih, List.filter_cons]
    by_cases hp : isPerUserService n
    · simp [initStep, hp]
    · cases he : env n with
      | fails msg => simp [initStep, hp, he, outcomeOk]
      | toolList tools => simp [initStep, hp, he, outcomeOk]

lemma initFold_perUser (env : String → ServerStartOutcome) :
    ∀ (config : List String) (st : InitState),
      (config.foldl (initStep env) st).perUser
        = st.perUser ++ config.filter (fun n => isPerUserService n) := by
  intro config
  induction config with
  | nil => intro st; simp
  | cons n rest ih =>
    intro st
    rw [List.foldl_cons, ih, List.filter_cons]
    by_cases hp : isPerUserService n
    · simp [initStep, hp]
    · cases he : env n with
      | fails msg => simp [initStep, hp, he]
      | toolList tools => simp [initStep, hp, he]

lemma registryInsert_mem_snd (reg : List (String × String)) (t s : String) :
    ∀ q ∈ registryInsert reg t s, q.2 = s ∨ q ∈ reg := by
  intro q hq
  unfold registryInsert at hq
  by_cases h : reg.any (fun p => p.1 = t)
  · rw [if_pos h] at hq
    rcases List.mem_map.mp hq with ⟨p, hp, he⟩
    by_cases ht : p.1 = t
    · left
      rw [← he]
      simp [ht]
    · right
      rw [← he]
      simp only [if_neg ht]
      exact hp
  · rw [if_neg h] at hq
    rcases List.mem_append.mp hq with h2 | h2
    · right; exact h2
    · left
      simp only [List.mem_singleton] at h2
      rw [h2]

lemma regFoldTools_mem_snd (s : String) :
    ∀ (tools : List String) (reg : List (String × String)),
      ∀ q ∈ tools.foldl (fun r t => registryInsert r t s) reg, q.2 = s ∨ q ∈ reg := by
  intro tools
  induction tools with
  | nil => intro reg q hq; right; exact hq
  | cons t ts ih =>
    intro reg q hq
    rw [List.foldl_cons] at hq
    rcases ih (registryInsert reg t s) q hq with h | h
    · left; exact h
    · exact registryInsert_mem_snd reg t s q h

lemma initFold_registry_ne (env : String → ServerStartOutcome) (name : String)
    (hfail : outcomeOk (env name) = false) :
    ∀ (config : List String) (st : InitState),
      (∀ q ∈ st.registry, q.2 ≠ name) →
      ∀ q ∈ (config.foldl (initStep env) st).registry, q.2 ≠ name := by
  intro config
  induction config with
  | nil => intro st h q hq; exact h q hq
  | cons n rest ih =>
    intro st h
    rw [List.foldl_cons]
    refine ih _ ?_
    intro q hq
    unfold initStep at hq
    by_cases hp : isPerUserService n
    · rw [if_pos hp] at hq
      exact h q hq
    · rw [if_neg hp] at hq
      rcases he : env n with msg | tools
      · rw [he] at hq
        exact h q hq
      · rw [he] at hq
        rcases regFoldTools_mem_snd n tools st.registry q hq with h2 | h2
        · intro hqn
          rw [hqn] at h2
          rw [h2] at hfail
          rw [he] at hfail
          simp [outcomeOk] at hfail
        · exact h q h2

/-- C4: one shared server's failure during `initialize_servers` is
logged and the server is excluded from the client map and the registry,
while every other successfully starting shared server is still brought
up; the call raises (the "No MCP servers successfully initialized"
RuntimeError) exactly when every configured entry is a non-per-user
server that failed — i.e. only when no shared server started and no
per-user service was recorded. -/
theorem init_failure_isolated (env : String → ServerStartOutcome) (config : List String)
    (name : String) (hmem : name ∈ config) (hshared : isPerUserService name = false)
    (hfail : outcomeOk (env name) = false) :
    name ∉ (initRun env config).clients ∧
    name ∈ (initRun env config).failures ∧
    (∀ q ∈ (initRun env config).registry, q.2 ≠ name) ∧
    (∀ other ∈ config, isPerUserService other = false → outcomeOk (env other) = true →
      other ∈ (initRun env config).clients) ∧
    ((initialize_servers env config = .error "No MCP servers successfully initialized") ↔
      ∀ n ∈ config, isPerUserService n = false ∧ outcomeOk (env n) = false) := by
  have hc := initFold_clients env config ⟨[], [], [], []⟩
  have hf := initFold_failures env config ⟨[], [], [], []⟩
  have hp := initFold_perUser env config ⟨[], [], [], []⟩
  refine ⟨?_, ?_, ?_, ?_, ?_⟩
  · intro hcon
    rw [show initRun env config = config.foldl (initStep env) ⟨[], [], [], []⟩ from rfl, hc] at hcon
    simp only [List.nil_append, List.mem_filter] at hcon
    rw [hshared, hfail] at hcon
    simp at hcon
  · rw [show initRun env config = config.foldl (initStep env) ⟨[], [], [], []⟩ from rfl, hf]
    simp only [List.nil_append, List.mem_filter]
    exact ⟨hmem, by rw [hshared, hfail]; rfl⟩
  · intro q hq
    exact initFold_registry_ne env name hfail config ⟨[], [], [], []⟩ (by intro r hr; simp at hr) q hq
  · intro other hother hsh hok
    rw [show initRun env config = config.foldl (initStep env) ⟨[], [], [], []⟩ from rfl, hc]
    simp only [List.nil_append, List.mem_filter]
    exact ⟨hother, by rw [hsh, hok]; rfl⟩
  · unfold initialize_servers
    constructor
    · intro herr
      by_cases hcnd : (initRun env config).clients = [] ∧ (initRun env config).perUser = []
      · intro n hn
        have hcl := hcnd.1
        have hpu := hcnd.2
        rw [show initRun env config = config.foldl (initStep env) ⟨[], [], [], []⟩ from rfl, hc] at hcl
        rw [show initRun env config = config.foldl (initStep env) ⟨[], [], [], []⟩ from rfl, hp] at hpu
        simp only [List.nil_append, List.filter_eq_nil_iff] at hcl hpu
        have h1 := hpu n hn
        have h2 := hcl n hn
        simp only [Bool.not_eq_true] at h1
        refine ⟨h1, ?_⟩
        rw [h1] at h2
        simpa using h2
      · rw [if_neg hcnd] at herr
        exact Except.noConfusion herr
    · intro hall
      have hcl : (initRun env config).clients = [] := by
        rw [show initRun env config = config.foldl (initStep env) ⟨[], [], [], []⟩ from rfl, hc]
        simp only [List.nil_append, List.filter_eq_nil_iff]
        intro n hn
        rw [(hall n hn).1, (hall n hn).2]
        simp
      have hpu : (initRun env config).perUser = [] := by
        rw [show initRun env config = config.foldl (initStep env) ⟨[], [], [], []⟩ from rfl, hp]
        simp only [List.nil_append, List.filter_eq_nil_iff]
        intro n hn
        rw [(hall n hn).1]
        simp
      rw [if_pos ⟨hcl, hpu⟩]

/-- C4 witness: two configured shared servers where one fails to start —
initialization completes, the survivor's tools are registered, and the
failure is logged for the other. -/
theorem init_failure_isolated_witness :
    "bad" ∉ (initRun (fun n => if n = "good" then .toolList ["t1"] else .fails "boom")
        ["bad", "good"]).clients ∧
    "bad" ∈ (initRun (fun n => if n = "good" then .toolList ["t1"] else .fails "boom")
        ["bad", "good"]).failures ∧
    (∀ q ∈ (initRun (fun n => if n = "good" then .toolList ["t1"] else .fails "boom")
        ["bad", "good"]).registry, q.2 ≠ "bad") ∧
    (∀ other ∈ ["bad", "good"],
      isPerUserService other = false →
      outcomeOk ((fun n => if n = "good" then ServerStartOutcome.toolList ["t1"]
        else ServerStartOutcome.fails "boom") other) = true →
      other ∈ (initRun (fun n => if n = "good" then .toolList ["t1"] else .fails "boom")
        ["bad", "good"]).clients) ∧
    ((initialize_servers (fun n => if n = "good" then .toolList ["t1"] else .fails "boom")
        ["bad", "good"] = .error "No MCP servers successfully initialized") ↔
      ∀ n ∈ ["bad", "good"],
        isPerUserService n = false ∧
        outcomeOk ((fun n => if n = "good" then ServerStartOutcome.toolList ["t1"]
          else ServerStartOutcome.fails "boom") n) = false) :=
  init_failure_isolated _ _ "bad" (by simp) (by decide) (by decide)

/-- C8: `MCPToolManager.call_tool` with a tool name absent from the
registry and no per-user services configured raises the unknown-tool
`ValueError`, whose message names the requested tool. -/
theorem unknown_tool_error (env : UserClientEnv) (ms : ManagerState) (tool : String)
    (uid : Option String) (h1 : registryGet ms.registry tool = none)
    (h2 : ms.perUserConfigs = []) :
    mgrCallTool env ms tool uid = .error (.unknownTool ("Unknown tool: " ++ tool)) ∧
    ∃ pre, "Unknown tool: " ++ tool = pre ++ tool := by
  refine ⟨?_, "Unknown tool: ", rfl⟩
  unfold mgrCallTool
  rw [h1, h2]

/-- C8 witness: `call_tool("nonexistent_tool", …)` against a manager
with an empty registry and no per-user services. -/
theorem unknown_tool_error_witness :
    mgrCallTool ⟨fun _ _ => none⟩
        ⟨[], [], false, fun _ _ => false, ["search-server"]⟩ "nonexistent_tool" none
      = .error (.unknownTool ("Unknown tool: " ++ "nonexistent_tool")) ∧
    ∃ pre, "Unknown tool: " ++ "nonexistent_tool" = pre ++ "nonexistent_tool" :=
  unknown_tool_error _ _ "nonexistent_tool" none rfl rfl

/-- C10: when per-user services are configured and the tool is not in
the registry, `call_tool` raises `AuthRequiredError` for the first
per-user service once there is no token store or no stored token for it
— taking precedence over the unknown-tool error — reporting user id
`"unknown"` when `user_id` is `None`, with the connect URL built from
the service's auth path and that user id. -/
theorem auth_required_precedence (env : UserClientEnv) (ms : ManagerState)
    (tool s : String) (rest : List String) (uid : Option String)
    (h1 : registryGet ms.registry tool = none)
    (h2 : ms.perUserConfigs = s :: rest)
    (h3 : ms.hasTokenStore = false ∨ ms.hasToken (uid.getD "") s = false) :
    mgrCallTool env ms tool uid =
      .error (.authRequired s (uid.getD "unknown")
        (serviceAuthPath s ++ "?user_id=" ++ uid.getD "unknown") (authDefaultMsg s)) := by
  unfold mgrCallTool
  rw [h1, h2]
  unfold probeServices
  rw [if_pos h3]
  rfl

/-- C10 witness: no token store configured, one per-user service
(google-calendar), `user_id = None`: the auth-required signal reports
user `"unknown"` and connect URL `/auth/google/login?user_id=unknown`,
not an unknown-tool error. -/
theorem auth_required_precedence_witness :
    mgrCallTool ⟨fun _ _ => none⟩
        ⟨[], ["google-calendar"], false, fun _ _ => false, []⟩ "list_events" none
      = .error (.authRequired "google-calendar" "unknown"
          (serviceAuthPath "google-calendar" ++ "?user_id=" ++ "unknown")
          (authDefaultMsg "google-calendar")) :=
  auth_required_precedence _ _ "list_events" "google-calendar" [] none rfl rfl (Or.inl rfl)

/-! ## Lemmas about the PKCE base64 encoding -/

lemma b64char_ne_pad (n : Nat) : b64char n ≠ '=' := by
  by_cases h : n < 64
  · have hall : ∀ m, m < 64 → b64char m ≠ '=' := by decide
    exact hall n h
  · unfold b64char
    rw [List.getD_eq_default]
    · decide
    · have hlen : b64urlAlphabet.length = 64 := rfl
      omega

lemma rstrip_append (xs ys : List Char) (h : rstripEq ys ≠ []) :
    rstripEq (xs ++ ys) = xs ++ rstripEq ys := by
  unfold rstripEq at h ⊢
  rw [List.reverse_append, List.dropWhile_append]
  have hne : ((ys.reverse).dropWhile (fun c => c = '=')).isEmpty = false := by
    by_cases he : (ys.reverse).dropWhile (fun c => c = '=') = []
    · exact absurd (by rw [he]; rfl) h
    · simp [List.isEmpty_iff, he]
  rw [hne]
  simp

lemma rstrip_encode_two (a b : Nat) :
    rstripEq (b64urlEncode [a, b])
      = [b64char (a / 4), b64char (a % 4 * 16 + b / 16), b64char (b % 16 * 4)] := by
  show rstripEq
      [b64char (a / 4), b64char (a % 4 * 16 + b / 16), b64char (b % 16 * 4), '='] = _
  unfold rstripEq
  simp [List.dropWhile_cons, b64char_ne_pad]

lemma verifier_chunks :
    ∀ (fuel : Nat) (l : List Nat), l.length ≤ fuel → l.length % 3 = 2 →
      rstripEq (b64urlEncode l) ≠ [] ∧
      (rstripEq (b64urlEncode l)).length = 4 * (l.length / 3) + 3 ∧
      ∀ ch ∈ rstripEq (b64urlEncode l), ch ≠ '=' := by
  intro fuel
  induction fuel with
  | zero =>
    intro l hlen hmod
    rw [Nat.le_zero] at hlen
    rw [hlen] at hmod
    simp at hmod
  | succ f ih =>
    intro l hlen hmod
    match l with
    | [] => simp at hmod
    | [a] => simp at hmod
    | [a, b] =>
      rw [rstrip_encode_two]
      refine ⟨by simp, by simp, ?_⟩
      intro ch hch
      simp only [List.mem_cons, List.not_mem_nil, or_false] at hch
      rcases hch with h | h | h
      · rw [h]; exact b64char_ne_pad _
      · rw [h]; exact b64char_ne_pad _
      · rw [h]; exact b64char_ne_pad _
    | a :: b :: c :: rest =>
      have hr : rest.length % 3 = 2 := by
        simp only [List.length_cons] at hmod
        omega
      have hrlen : rest.length ≤ f := by
        simp only [List.length_cons] at hlen
        omega
      obtain ⟨hne, hlen2, hmem⟩ := ih rest hrlen hr
      have henc : b64urlEncode (a :: b :: c :: rest)
          = [b64char (a / 4), b64char (a % 4 * 16 + b / 16),
             b64char (b % 16 * 4 + c / 64), b64char (c % 64)] ++ b64urlEncode rest := rfl
      rw [henc, rstrip_append _ _ hne]
      refine ⟨by simp, ?_, ?_⟩
      · simp only [List.length_append, List.length_cons, List.length_nil, hlen2]
        omega
      · intro ch hch
        rcases List.mem_append.mp hch with h | h
        · simp only [List.mem_cons, List.not_mem_nil, or_false] at h
          rcases h with h | h | h | h
          · rw [h]; exact b64char_ne_pad _
          · rw [h]; exact b64char_ne_pad _
          · rw [h]; exact b64char_ne_pad _
          · rw [h]; exact b64char_ne_pad _
        · exact hmem ch h

/-- C7: the PKCE code verifier produced by `_generate_code_verifier`
from the 32 random bytes is their URL-safe base64 encoding with the
padding stripped: it has exactly 43 characters (hence ≥ 43, the RFC 7636
minimum) and contains no `=`; the code challenge transmitted in the
authorization request equals the URL-safe base64 encoding, padding
stripped, of SHA-256 of the verifier (43 characters as well since the
digest has 32 bytes), and the transmitted challenge method is `S256`. -/
theorem pkce_verifier_challenge (sha256 : List Nat → List Nat) (rnd : List Nat)
    (clientId redirectUri scope state : String)
    (h32 : rnd.length = 32)
    (hsha : (sha256 (utf8Encode (generate_code_verifier rnd))).length = 32) :
    generate_code_verifier rnd = rstripEq (b64urlEncode rnd) ∧
    (generate_code_verifier rnd).length = 43 ∧
    (∀ ch ∈ generate_code_verifier rnd, ch ≠ '=') ∧
    (generate_code_challenge sha256 (generate_code_verifier rnd)).length = 43 ∧
    (authenticateParams sha256 rnd clientId redirectUri scope state).lookup "code_challenge"
      = some (String.mk
          (rstripEq (b64urlEncode (sha256 (utf8Encode (generate_code_verifier rnd)))))) ∧
    (authenticateParams sha256 rnd clientId redirectUri scope state).lookup
        "code_challenge_method" = some "S256" := by
  have hv := verifier_chunks rnd.length rnd le_rfl (by rw [h32])
  have hc := verifier_chunks (sha256 (utf8Encode (generate_code_verifier rnd))).length
    (sha256 (utf8Encode (generate_code_verifier rnd))) le_rfl (by rw [hsha])
  refine ⟨rfl, ?_, hv.2.2, ?_, rfl, rfl⟩
  · show (rstripEq (b64urlEncode rnd)).length = 43
    rw [hv.2.1, h32]
  · show (rstripEq (b64urlEncode (sha256 (utf8Encode (generate_code_verifier rnd))))).length = 43
    rw [hc.2.1, hsha]

/-- C7 witness: a concrete draw of 32 bytes and a concrete stand-in
digest function of 32-byte output. -/
theorem pkce_verifier_challenge_witness :
    generate_code_verifier (List.range 32)
        = rstripEq (b64urlEncode (List.range 32)) ∧
    (generate_code_verifier (List.range 32)).length = 43 ∧
    (∀ ch ∈ generate_code_verifier (List.range 32), ch ≠ '=') ∧
    (generate_code_challenge (fun _ => List.range 32)
        (generate_code_verifier (List.range 32))).length = 43 ∧
    (authenticateParams (fun _ => List.range 32) (List.range 32)
        "arkos_mcp_client" "http://localhost:8765/callback" "mcp:tools" "st").lookup
        "code_challenge"
      = some (String.mk (rstripEq (b64urlEncode ((fun _ => List.range 32)
          (utf8Encode (generate_code_verifier (List.range 32))))))) ∧
    (authenticateParams (fun _ => List.range 32) (List.range 32)
        "arkos_mcp_client" "http://localhost:8765/callback" "mcp:tools" "st").lookup
        "code_challenge_method" = some "S256" :=
  pkce_verifier_challenge (fun _ => List.range 32) (List.range 32)
    "arkos_mcp_client" "http://localhost:8765/callback" "mcp:tools" "st"
    (by simp) (by simp)

end Arkos
